import Mathlib

/-!
Verification development for the Claude-Chat-History-Viewer client code
(`public/js/explorer.js`, `public/js/time-slider.js`, and the detail-panel
explorer variant).  The JavaScript is shallowly embedded: JS `Date` values
are modelled as `Int` milliseconds since the Unix epoch with the local time
zone taken to be UTC (the code runs all of its date arithmetic through the
same local-time lens, so any fixed offset gives the same bucket structure);
JS strings are Lean `String`s; `null` is `Option.none`; DOM display state is
carried in explicit state records.
-/

namespace ChatViewer

/-! ## Date primitives (model of the JS `Date` built-ins used by the code) -/

/-- Milliseconds per day. -/
def msPerDay : Int := 86400000

/-- The civil day number (days since 1970-01-01) containing timestamp `t`;
models `setHours(0,0,0,0)` / the date part of a `Date`.  `/` on `Int` is
Euclidean division, which is floor division for the positive divisor. -/
def floorDay (t : Int) : Int := t / msPerDay

/-- Model of `d.setHours(0,0,0,0)` on a timestamp. -/
def startOfDayMs (t : Int) : Int := floorDay t * msPerDay

/-- Model of `d.setHours(23,59,59,999)` on a timestamp. -/
def endOfDayMs (t : Int) : Int := floorDay t * msPerDay + (msPerDay - 1)

/-- Day of week of a civil day number: 0 = Sunday … 6 = Saturday.
1970-01-01 (day 0) was a Thursday (4). -/
def weekdayOfDay (z : Int) : Int := (z + 4) % 7

/-- Model of `date.getDay()` (with local time = UTC). -/
def getDayJS (t : Int) : Int := weekdayOfDay (floorDay t)

/-- Civil day number of the Sunday starting the week containing day `z`. -/
def sundayOfDay (z : Int) : Int := z - weekdayOfDay z

/-- Days from civil date (Gregorian, proleptic) to the day number since
1970-01-01.  Standard civil-calendar algorithm, used to model the JS `Date`
parser on ISO dates. -/
def daysFromCivil (y m d : Int) : Int :=
  let y' := if m ≤ 2 then y - 1 else y
  let era := y' / 400
  let yoe := y' - era * 400
  let mp := if 2 < m then m - 3 else m + 9
  let doy := (153 * mp + 2) / 5 + d - 1
  let doe := yoe * 365 + yoe / 4 - yoe / 100 + doy
  era * 146097 + doe - 719468

/-- Inverse of `daysFromCivil`: day number since 1970-01-01 to (year, month,
day).  Used to model `toISOString` and `toLocaleDateString`. -/
def civilFromDays (z : Int) : Int × Int × Int :=
  let z' := z + 719468
  let era := z' / 146097
  let doe := z' - era * 146097
  let yoe := (doe - doe / 1460 + doe / 36524 - doe / 146096) / 365
  let y := yoe + era * 400
  let doy := doe - (365 * yoe + yoe / 4 - yoe / 100)
  let mp := (5 * doy + 2) / 153
  let d := doy - (153 * mp + 2) / 5 + 1
  let m := if mp < 10 then mp + 3 else mp - 9
  (if m ≤ 2 then y + 1 else y, m, d)

/-- Zero-pad a (nonnegative) number to two digits. -/
def pad2 (n : Int) : String := if n < 10 then "0" ++ toString n else toString n

/-- Zero-pad a (nonnegative) number to four digits; models the year field of
`toISOString` for years 0–9999, the only range this data uses. -/
def pad4 (n : Int) : String :=
  if n < 10 then "000" ++ toString n
  else if n < 100 then "00" ++ toString n
  else if n < 1000 then "0" ++ toString n
  else toString n

/-- The `YYYY-MM-DD` string for a civil day number; models
`d.toISOString().split('T')[0]` (with local time = UTC). -/
def isoDateOfDay (z : Int) : String :=
  let c := civilFromDays z
  pad4 c.1 ++ "-" ++ pad2 c.2.1 ++ "-" ++ pad2 c.2.2

/-- Number of days in a month of a given year (Gregorian). -/
def daysInMonth (y m : Int) : Int :=
  if m = 2 then
    if y % 4 = 0 ∧ (y % 100 ≠ 0 ∨ y % 400 = 0) then 29 else 28
  else if m = 4 ∨ m = 6 ∨ m = 9 ∨ m = 11 then 30
  else 31

/-- Numeric value of a list of decimal digit characters. -/
def digitsToInt (cs : List Char) : Int :=
  cs.foldl (fun acc c => acc * 10 + ((c.toNat : Int) - 48)) 0

/-- Model of `new Date(string).getTime()` restricted to the date-only
ISO-8601 form `"YYYY-MM-DD"` that this application's data uses (the server
renders ISO dates into the page).  Any other string is an invalid date
(`none`), exactly as `new Date("not-a-date")` is `Invalid Date`. -/
def parseDate (s : String) : Option Int :=
  match s.data with
  | [y1, y2, y3, y4, '-', m1, m2, '-', d1, d2] =>
    if ([y1, y2, y3, y4, m1, m2, d1, d2].all Char.isDigit) then
      let y := digitsToInt [y1, y2, y3, y4]
      let m := digitsToInt [m1, m2]
      let d := digitsToInt [d1, d2]
      if 1 ≤ m ∧ m ≤ 12 ∧ 1 ≤ d ∧ d ≤ daysInMonth y m then
        some (daysFromCivil y m d * msPerDay)
      else none
    else none
  | _ => none

/-- Model of `String.prototype.toLowerCase` (on the ASCII range this data
uses). -/
def lowerStr (s : String) : String := String.mk (s.data.map Char.toLower)

/-- Does `pat` occur at the start of `l`?  Helper for substring search. -/
def leadsIn : List Char → List Char → Bool
  | [], _ => true
  | _ :: _, [] => false
  | a :: as, b :: bs => a == b && leadsIn as bs

/-- Model of `hay.includes(needle)` (substring containment). -/
def strContains (hay needle : String) : Bool :=
  (List.range (hay.data.length + 1)).any fun i => leadsIn needle.data (hay.data.drop i)

/-- Short month names, for `toLocaleDateString('en-US', {month:'short'})`. -/
def monthShort (m : Int) : String :=
  if m = 1 then "Jan" else if m = 2 then "Feb" else if m = 3 then "Mar"
  else if m = 4 then "Apr" else if m = 5 then "May" else if m = 6 then "Jun"
  else if m = 7 then "Jul" else if m = 8 then "Aug" else if m = 9 then "Sep"
  else if m = 10 then "Oct" else if m = 11 then "Nov" else "Dec"

/-- Model of `d.toLocaleDateString('en-US', { month: 'short', day: 'numeric' })`. -/
def formatShortDate (t : Int) : String :=
  let c := civilFromDays (floorDay t)
  monthShort c.2.1 ++ " " ++ toString c.2.2

/-! ## Time-slider data model (time-slider.js) -/

/-- Bucket granularity: `'day' | 'week'` (time-slider.js line 69). -/
inductive Granularity where
  | day
  | week
deriving DecidableEq, Repr

/-- A conversation summary, as supplied in `window.conversationData`:
`{ project, date, messages }` (spec §3).  `messages` is the message count. -/
structure Conv where
  project : String
  date : String
  messages : Int
deriving DecidableEq, Repr

/-- A histogram bucket (time-slider.js lines 94–100). -/
structure Bucket where
  date : Int
  key : String
  conversations : Int
  messages : Int
  granularity : Granularity
deriving DecidableEq, Repr

/-- `getBucketKey` (time-slider.js lines 131–137):
`d.setDate(d.getDate() - d.getDay())` subtracts `getDay()` days, and
`toISOString().split('T')[0]` takes the ISO date of the result. -/
def getBucketKey (t : Int) (g : Granularity) : String :=
  let d := if g = .week then t - getDayJS t * msPerDay else t
  isoDateOfDay (floorDay d)

/-- Milliseconds stepped per bucket (`current.setDate(current.getDate() + 7)`
or `+ 1`, time-slider.js lines 103–107). -/
def stepMs (g : Granularity) : Int :=
  (if g = .week then 7 else 1) * msPerDay

/-- The `while (current <= end)` loop of `createBuckets` (lines 91–108):
the list of bucket start timestamps `current, current + step, …`, every one
`≤ endMs`, enumerated by iteration number. -/
def bucketStarts (current endMs : Int) (g : Granularity) : List Int :=
  if current ≤ endMs then
    (List.range (((endMs - current) / stepMs g).toNat + 1)).map fun (i : Nat) =>
      current + (i : Int) * stepMs g
  else []

/-- `bucketMap.set key bucket` on a JS `Map` represented as a list in
first-insertion order: replacing an existing key keeps its position,
a new key is appended. -/
def insertBucket (m : List Bucket) (b : Bucket) : List Bucket :=
  if m.any (fun x => x.key == b.key) then
    m.map (fun x => if x.key == b.key then b else x)
  else m ++ [b]

/-- A fresh empty bucket for loop timestamp `cur` (lines 94–100). -/
def mkBucket (cur : Int) (g : Granularity) : Bucket :=
  { date := cur, key := getBucketKey cur g, conversations := 0, messages := 0,
    granularity := g }

/-- The empty buckets created for the whole range (lines 91–108). -/
def emptyBuckets (startMs endMs : Int) (g : Granularity) : List Bucket :=
  (bucketStarts startMs endMs g).foldl (fun m cur => insertBucket m (mkBucket cur g)) []

/-- One step of the aggregation loop (lines 111–121): a conversation with a
valid date increments the bucket holding its key, if any (`bucketMap.get`
missing the key leaves the map unchanged; keys are unique in a JS `Map`, so
the field update below touches at most the one bucket). -/
def aggStep (g : Granularity) (m : List Bucket) (c : Conv) : List Bucket :=
  match parseDate c.date with
  | none => m
  | some t =>
    let k := getBucketKey t g
    m.map fun b =>
      if b.key == k then
        { b with conversations := b.conversations + 1, messages := b.messages + c.messages }
      else b

/-- Insert a bucket into a date-sorted list; together with `sortByDate` this
models `result.sort((a, b) => a.date - b.date)` (line 125). -/
def insertByDate (b : Bucket) : List Bucket → List Bucket
  | [] => [b]
  | x :: xs => if b.date < x.date then b :: x :: xs else x :: insertByDate b xs

/-- Date-ascending sort of the bucket list (line 125). -/
def sortByDate (l : List Bucket) : List Bucket := l.foldr insertByDate []

/-- The loop's start timestamp (lines 81–85): midnight of `minDate`'s day,
moved back to the week's Sunday for weekly granularity (`setHours(0,0,0,0)`
then `setDate(getDate() - getDay())`; subtracting whole days from a midnight
keeps it at midnight). -/
def loopStartMs (minDate : Int) (g : Granularity) : Int :=
  (if g = .week then sundayOfDay (floorDay minDate) else floorDay minDate) * msPerDay

/-- `createBuckets(minDate, maxDate, granularity, conversations)`
(time-slider.js lines 76–128). -/
def createBuckets (minDate maxDate : Int) (g : Granularity) (conversations : List Conv) :
    List Bucket :=
  let startMs := loopStartMs minDate g
  let endMs := endOfDayMs maxDate
  let empty := emptyBuckets startMs endMs g
  let filled := conversations.foldl (aggStep g) empty
  sortByDate filled

/-- The parseable dates of a conversation list
(`conversations.map(c => new Date(c.date)).filter(d => !isNaN(d))`, line 58). -/
def validDates (cs : List Conv) : List Int :=
  cs.filterMap fun c => parseDate c.date

/-- `Math.min(...dates)` over the valid dates (line 64), `none` when there
are none. -/
def minDateOf (cs : List Conv) : Option Int :=
  match validDates cs with
  | [] => none
  | d :: ds => some (ds.foldl min d)

/-- `Math.max(...dates)` over the valid dates (line 65). -/
def maxDateOf (cs : List Conv) : Option Int :=
  match validDates cs with
  | [] => none
  | d :: ds => some (ds.foldl max d)

/-- `Math.ceil((maxDate - minDate) / msPerDay)` (line 68); 0 when there are
no valid dates. -/
def spanDays (cs : List Conv) : Int :=
  match minDateOf cs, maxDateOf cs with
  | some minD, some maxD => (maxD - minD + (msPerDay - 1)) / msPerDay
  | _, _ => 0

/-- Granularity choice (line 69): `'week'` when the span exceeds 60 days. -/
def granularityOf (cs : List Conv) : Granularity :=
  if 60 < spanDays cs then .week else .day

/-- `processData(conversations)` (time-slider.js lines 51–73).  The empty
list and no-valid-dates guards both produce `buckets = []`, i.e. exactly the
`minDateOf cs = none` case. -/
def processData (cs : List Conv) : List Bucket :=
  match minDateOf cs, maxDateOf cs with
  | some minD, some maxD => createBuckets minD maxD (granularityOf cs) cs
  | _, _ => []

/-! ## Time-slider interaction state (time-slider.js) -/

/-- The active metric (`currentMetric`, line 7). -/
inductive Metric where
  | conversations
  | messages
deriving DecidableEq, Repr

/-- `buckets[i]` on a JS array with a possibly negative index: any index
outside `0 … length-1` yields `undefined` (`none`). -/
def idxGet (bs : List Bucket) (i : Int) : Option Bucket :=
  if i < 0 then none else bs[i.toNat]?

/-- The module-level state of time-slider.js, together with the observable
effects the claims talk about: the rendered bars, the range-display text and
the log of invocations of the registered range-change callback (the
`onRangeChange` listener is modelled as always registered, as the Explorer
registers one at init). -/
structure SliderState where
  buckets : List Bucket
  selectionStart : Option Int
  selectionEnd : Option Int
  isDragging : Bool
  dragStartIndex : Option Int
  sliderFolder : String
  currentMetric : Metric
  clearBtnVisible : Bool
  rangeDisplayVisible : Bool
  rangeDisplayText : String
  rendered : List (Int × Bool)
  notifications : List (Option Int × Option Int)
deriving DecidableEq, Repr

/-- `isIndexInSelection` (lines 189–194). -/
def isIndexInSelection (selS selE : Option Int) (i : Int) : Bool :=
  match selS with
  | none => false
  | some ss =>
    let se := selE.getD ss
    decide (min ss se ≤ i) && decide (i ≤ max ss se)

/-- The bar list produced by `render` (lines 149–170): per bucket, the value
of the active metric and whether the bar is inside the selection.  The
percentage height (float presentation) is not modelled; the claims are about
which bars exist and which are marked selected. -/
def renderBars (bs : List Bucket) (selS selE : Option Int) (m : Metric) :
    List (Int × Bool) :=
  bs.enum.map fun p =>
    ((if m = .conversations then p.2.conversations else p.2.messages),
     isIndexInSelection selS selE (p.1 : Int))

/-- `render()` (lines 140–186) as a state update. -/
def render (st : SliderState) : SliderState :=
  { st with rendered :=
      renderBars st.buckets st.selectionStart st.selectionEnd st.currentMetric }

/-- The `(startDate, endDate)` pair passed to the range-change callback by
`notifyRangeChange` (lines 399–420): `null`s when there is no selection,
otherwise the start bucket's date and the end bucket's end-of-day. -/
def notifyDates (st : SliderState) : Option Int × Option Int :=
  match st.selectionStart with
  | none => (none, none)
  | some ss =>
    let se := st.selectionEnd.getD ss
    let s := min ss se
    let e := max ss se
    ((idxGet st.buckets s).map (fun b => b.date),
     (idxGet st.buckets e).map (fun b => endOfDayMs b.date))

/-- `notifyRangeChange()` — invoke the registered callback, logged. -/
def notifyRangeChange (st : SliderState) : SliderState :=
  { st with notifications := st.notifications ++ [notifyDates st] }

/-- `updateRangeDisplay()` (lines 376–396): `s`/`e` below are the
normalized `min`/`max` of the selection indices. -/
def updateRangeDisplay (st : SliderState) : SliderState :=
  match st.selectionStart with
  | none => st
  | some ss =>
    match idxGet st.buckets (min ss (st.selectionEnd.getD ss)),
          idxGet st.buckets (max ss (st.selectionEnd.getD ss)) with
    | some bs, some be =>
      { st with
        rangeDisplayText :=
          if min ss (st.selectionEnd.getD ss) = max ss (st.selectionEnd.getD ss)
          then formatShortDate bs.date
          else formatShortDate bs.date ++ " - " ++ formatShortDate be.date,
        rangeDisplayVisible := true }
    | _, _ => st

/-- `clearSelection()` (lines 360–373). -/
def clearSelection (st : SliderState) : SliderState :=
  let st := { st with selectionStart := none, selectionEnd := none,
                      clearBtnVisible := false, rangeDisplayVisible := false }
  notifyRangeChange (render st)

/-- `handleMouseDown` (lines 277–287); the bar index under the pointer
(`getIndexFromTarget`) is abstracted as the `Option Int` input. -/
def handleMouseDown (idx : Option Int) (st : SliderState) : SliderState :=
  match idx with
  | none => st
  | some i =>
    render { st with isDragging := true, dragStartIndex := some i,
                     selectionStart := some i, selectionEnd := some i }

/-- `handleMouseMove` (lines 290–299). -/
def handleMouseMove (idx : Option Int) (st : SliderState) : SliderState :=
  if st.isDragging = false then st
  else
    match idx with
    | none => st
    | some i => render { st with selectionEnd := some i }

/-- `handleMouseUp` (lines 302–323): normalize the selection, show the clear
affordance and range label, notify listeners. -/
def handleMouseUp (st : SliderState) : SliderState :=
  if st.isDragging = false then st
  else
    let st := { st with isDragging := false }
    match st.selectionStart with
    | none => st
    | some ss =>
      let se := st.selectionEnd.getD ss
      let st := { st with selectionStart := some (min ss se),
                          selectionEnd := some (max ss se),
                          clearBtnVisible := true }
      notifyRangeChange (updateRangeDisplay st)

/-- `filterByFolder(folder)` (lines 423–448); `window.conversationData` is
the `cd` parameter. -/
def filterByFolder (cd : List Conv) (folder : String) (st : SliderState) :
    SliderState :=
  let st := { st with sliderFolder := folder,
                      selectionStart := none, selectionEnd := none,
                      clearBtnVisible := false, rangeDisplayVisible := false }
  let filteredData := if folder ≠ "" then cd.filter (fun c => c.project == folder) else cd
  let st := { st with buckets := processData filteredData }
  notifyRangeChange (render st)

/-- `TimeSlider.getSelection` (lines 458–466). -/
def getSelection (st : SliderState) : Option (Option Int × Option Int) :=
  match st.selectionStart with
  | none => none
  | some ss =>
    let se := st.selectionEnd.getD ss
    let s := min ss se
    let e := max ss se
    some ((idxGet st.buckets s).map (fun b => b.date),
          (idxGet st.buckets e).map (fun b => b.date))

/-- JS `Array.prototype.findIndex`: index of the first element satisfying
`p`, `-1` when none does. -/
def findIndexJS (p : α → Bool) : List α → Int
  | [] => -1
  | a :: as =>
    if p a then 0
    else
      let r := findIndexJS p as
      if r = -1 then -1 else r + 1

/-- `TimeSlider.setSelection(startDate, endDate)` (lines 467–488): a null
start clears; otherwise both bounds are mapped to the first bucket whose
date is at or after them, a failed start lookup is clamped to `0` and a
failed end lookup to the last index. -/
def setSelection (startDate endDate : Option Int) (st : SliderState) : SliderState :=
  match startDate with
  | none => clearSelection st
  | some sd =>
    let startTime := sd
    let endTime := endDate.getD sd
    let s0 := findIndexJS (fun b => decide (startTime ≤ b.date)) st.buckets
    let e0 := findIndexJS (fun b => decide (endTime ≤ b.date)) st.buckets
    let s1 := if s0 = -1 then 0 else s0
    let e1 := if e0 = -1 then (st.buckets.length : Int) - 1 else e0
    let st := { st with selectionStart := some s1, selectionEnd := some e1,
                        clearBtnVisible := true }
    render (updateRangeDisplay st)

/-! ## Explorer filtering (explorer.js lines 232–308 and the detail-panel
variant's `filterChats`) -/

/-- A pre-rendered chat card's data attributes.  The DOM `dataset` values
are strings; an absent attribute is read through `|| ''` in the code, so it
is modelled as the empty string.  `warmupAttr` models `dataset.warmup`,
compared against `"true"` by the code. -/
structure Card where
  project : String
  title : String
  searchable : String
  dateStr : String
  warmupAttr : String
deriving DecidableEq, Repr

/-- The Explorer's filter-relevant module state. -/
structure FilterState where
  currentFolder : String
  searchTerm : String
  dateRangeStart : Option Int
  dateRangeEnd : Option Int
  ignoreWarmup : Bool
deriving DecidableEq, Repr

/-- `handleSearch` stores the lower-cased search box value (explorer.js
line 227, detail variant line 212). -/
def handleSearch (raw : String) (st : FilterState) : FilterState :=
  { st with searchTerm := lowerStr raw }

/-- The `matchesFolder` predicate of `filterChats` (line 246). -/
def matchesFolderB (st : FilterState) (c : Card) : Bool :=
  st.currentFolder == "" || c.project == st.currentFolder

/-- The `matchesSearch` predicate of `filterChats` (lines 249–252). -/
def matchesSearchB (st : FilterState) (c : Card) : Bool :=
  st.searchTerm == "" ||
    strContains (lowerStr c.title) st.searchTerm ||
    strContains (lowerStr c.searchable) st.searchTerm ||
    strContains (lowerStr c.project) st.searchTerm

/-- The `matchesDateRange` predicate of `filterChats` (lines 255–266): when
a bound is active and the card date parses, each set bound is checked
inclusively; an unparseable card date leaves the flag `true`. -/
def matchesDateRangeB (st : FilterState) (c : Card) : Bool :=
  if st.dateRangeStart.isSome || st.dateRangeEnd.isSome then
    match parseDate c.dateStr with
    | some cardDate =>
      (match st.dateRangeStart with
       | some s => !(decide (cardDate < s))
       | none => true) &&
      (match st.dateRangeEnd with
       | some e => !(decide (e < cardDate))
       | none => true)
    | none => true
  else true

/-- The `matchesWarmup` predicate of the detail-panel `filterChats`
(Dockerfile variant lines 244–245). -/
def matchesWarmupB (st : FilterState) (c : Card) : Bool :=
  !st.ignoreWarmup || !(c.warmupAttr == "true")

/-- Visibility decision of the detail-panel variant's `filterChats` for one
card (Dockerfile variant lines 230–272). -/
def cardVisibleDetail (st : FilterState) (c : Card) : Bool :=
  matchesFolderB st c && matchesSearchB st c && matchesDateRangeB st c &&
    matchesWarmupB st c

/-- Visibility decision of explorer.js's `filterChats` for one card
(explorer.js lines 239–281; no warmup predicate in this variant). -/
def cardVisibleExplorer (st : FilterState) (c : Card) : Bool :=
  matchesFolderB st c && matchesSearchB st c && matchesDateRangeB st c

/-- The `card.style.display` values assigned by the detail-panel
`filterChats` (`''` to show, `'none'` to hide); the month-group bookkeeping
is not consulted by any claim. -/
def filterChatsDetail (st : FilterState) (cards : List Card) : List (Card × String) :=
  cards.map fun c => (c, if cardVisibleDetail st c then "" else "none")

/-- The `card.style.display` values assigned by explorer.js's
`filterChats`. -/
def filterChatsExplorer (st : FilterState) (cards : List Card) : List (Card × String) :=
  cards.map fun c => (c, if cardVisibleExplorer st c then "" else "none")

/-! ### The spec-side predicates of claim C1, written from the claim's own
wording (folder: exact equality or vacuous; search: case-insensitive
substring against title, searchable blob or project; date: inclusive range
on whichever bounds are set, for a parseable card timestamp; warmup: flagged
cards hidden while the exclusion toggle is active). -/

/-- Spec-side folder predicate. -/
def folderPred (st : FilterState) (c : Card) : Prop :=
  st.currentFolder = "" ∨ c.project = st.currentFolder

/-- Spec-side case-insensitive search predicate over the raw (un-lowered)
search term. -/
def searchPredCI (raw : String) (c : Card) : Prop :=
  raw = "" ∨
    strContains (lowerStr c.title) (lowerStr raw) = true ∨
    strContains (lowerStr c.searchable) (lowerStr raw) = true ∨
    strContains (lowerStr c.project) (lowerStr raw) = true

/-- Spec-side date predicate: a parseable card timestamp must lie within
`[start, end]` inclusive on whichever bounds are set. -/
def datePred (st : FilterState) (c : Card) : Prop :=
  ∀ t, parseDate c.dateStr = some t →
    (∀ s, st.dateRangeStart = some s → s ≤ t) ∧
    (∀ e, st.dateRangeEnd = some e → t ≤ e)

/-- Spec-side warmup predicate: warmup-flagged cards are hidden while the
exclusion toggle is active. -/
def warmupPred (st : FilterState) (c : Card) : Prop :=
  st.ignoreWarmup = true → c.warmupAttr ≠ "true"

/-! ## Composed Explorer + Time Slider (claim C6) -/

/-- The composed page state: the Explorer's folder/date-range module state
plus the slider.  The Explorer's registered range-change callback stores the
notified pair into `dateRangeStart`/`dateRangeEnd` and re-filters. -/
structure AppState where
  slider : SliderState
  appFolder : String
  dateRangeStart : Option Int
  dateRangeEnd : Option Int
deriving DecidableEq, Repr

/-- `selectFolder(path)` in the detail-panel variant (Dockerfile variant
lines 168–200): set the folder, clear the Explorer date range, call
`TimeSlider.filterByFolder(path)` — whose `notifyRangeChange` immediately
invokes the registered callback with the cleared `(null, null)` selection,
which the callback writes back into the Explorer's date-range bounds.  URL
and sidebar bookkeeping are presentational and not modelled. -/
def selectFolderApp (cd : List Conv) (path : String) (st : AppState) : AppState :=
  let slider := filterByFolder cd path st.slider
  let notified := slider.notifications.getLast?.getD (none, none)
  { slider := slider, appFolder := path,
    dateRangeStart := notified.1, dateRangeEnd := notified.2 }

/-! ## Detail panel: `selectChat` (Dockerfile variant lines 299–343) -/

/-- A fetched chat-detail object (spec §3); the message list is carried
opaquely as rendering is presentational. -/
structure ChatData where
  title : String
  projectName : String
  messageCount : Int
  projectDir : String
  chatId : String
deriving DecidableEq, Repr

/-- Outcome of the `fetch`/`response.json()` pair: success with parsed data,
a non-success HTTP status (`!response.ok`), or a network/parse error
(rejected promise).  Both failure shapes land in the same `catch`. -/
inductive FetchOutcome where
  | ok (data : ChatData)
  | httpError
  | networkError
deriving DecidableEq, Repr

/-- Detail-panel module state: the chat cache (a JS object keyed by
`"projectDir/chatId"`, modelled as an association list), the selected id and
the detail-panel DOM state.  `loggedErrors` counts `console.error` calls. -/
structure DetailState where
  chatCache : List (String × ChatData)
  selectedChatId : String
  detailEmptyVisible : Bool
  detailEmptyText : String
  detailContentVisible : Bool
  detailLoadingVisible : Bool
  renderedChat : Option ChatData
  loggedErrors : Nat
deriving DecidableEq, Repr

/-- Lookup in the chat cache (`chatCache[selectedChatId]`). -/
def cacheGet (cache : List (String × ChatData)) (k : String) : Option ChatData :=
  (cache.find? (fun p => p.1 == k)).map (fun p => p.2)

/-- `chatCache[selectedChatId] = data` on a JS object: overwrite the
existing binding in place, or append a new one. -/
def cacheSet : List (String × ChatData) → String → ChatData → List (String × ChatData)
  | [], k, d => [(k, d)]
  | p :: ps, k, d => if p.1 == k then (k, d) :: ps else p :: cacheSet ps k d

/-- `renderChatDetail(data)` (Dockerfile variant lines 346–374), restricted
to the state the claims observe. -/
def renderChatDetail (d : ChatData) (st : DetailState) : DetailState :=
  { st with detailLoadingVisible := false, detailContentVisible := true,
            renderedChat := some d }

/-- Result of one `selectChat` call: the new state and the number of network
requests issued during the call. -/
structure SelectChatResult where
  state : DetailState
  fetchCount : Nat
deriving DecidableEq, Repr

/-- `selectChat(projectDir, chatId)` (Dockerfile variant lines 299–343),
with the single awaited fetch's outcome supplied as `outcome`.  The function
is total: every failure is caught inside (`catch`), so it never throws to
its caller.  Interleavings of concurrent calls are out of scope (spec §5
models the page as single-threaded with this fetch as the only suspension
point). -/
def selectChat (outcome : FetchOutcome) (projectDir chatId : String)
    (st : DetailState) : SelectChatResult :=
  let key := projectDir ++ "/" ++ chatId
  let st := { st with selectedChatId := key,
                      detailEmptyVisible := false,
                      detailContentVisible := false,
                      detailLoadingVisible := true }
  match cacheGet st.chatCache key with
  | some data => { state := renderChatDetail data st, fetchCount := 0 }
  | none =>
    match outcome with
    | .ok data =>
      let st := { st with chatCache := cacheSet st.chatCache key data }
      { state := renderChatDetail data st, fetchCount := 1 }
    | _ =>
      { state :=
          { st with loggedErrors := st.loggedErrors + 1,
                    detailLoadingVisible := false,
                    detailEmptyVisible := true,
                    detailEmptyText := "Failed to load chat" },
        fetchCount := 1 }

/-! ## Concrete instances and spec-side notions used by the claim theorems -/

/-- Concrete filter state for the C1 witness. -/
def filterState1 : FilterState :=
  { currentFolder := "a", searchTerm := lowerStr "Hello",
    dateRangeStart := some 0, dateRangeEnd := none, ignoreWarmup := true }

/-- Concrete card for the C1 witness. -/
def card1 : Card :=
  { project := "a", title := "Say Hello World", searchable := "stuff",
    dateStr := "2024-01-01", warmupAttr := "false" }

/-- Concrete filter state for C3: an active date range. -/
def filterState3 : FilterState :=
  { currentFolder := "", searchTerm := "", dateRangeStart := some 0,
    dateRangeEnd := some 86400000, ignoreWarmup := true }

/-- Concrete card for C3: an unparseable date attribute. -/
def card3 : Card :=
  { project := "p", title := "t", searchable := "s", dateStr := "not-a-date",
    warmupAttr := "false" }

/-- Concrete conversation data shared by the slider witnesses: two daily
buckets (2024-01-01 and 2024-01-02). -/
def convsTwo : List Conv :=
  [{ project := "a", date := "2024-01-01", messages := 3 },
   { project := "a", date := "2024-01-02", messages := 4 }]

/-- A slider state over `convsTwo`'s buckets with no active selection. -/
def slider0 : SliderState :=
  { buckets := processData convsTwo, selectionStart := none, selectionEnd := none,
    isDragging := false, dragStartIndex := none, sliderFolder := "",
    currentMetric := .conversations, clearBtnVisible := false,
    rangeDisplayVisible := false, rangeDisplayText := "", rendered := [],
    notifications := [] }

/-- A slider state mid-drag over the same buckets. -/
def sliderDrag : SliderState :=
  { slider0 with isDragging := true, selectionStart := some 0, selectionEnd := some 1 }

/-- The unit (day or week) of bucket `b` covers timestamp `t`. -/
def coversUnit (g : Granularity) (b : Bucket) (t : Int) : Prop :=
  match g with
  | .day => floorDay b.date = floorDay t
  | .week => weekdayOfDay (floorDay b.date) = 0 ∧
      floorDay b.date ≤ floorDay t ∧ floorDay t ≤ floorDay b.date + 6

/-- Concrete weekly bucket (week of Sunday 2023-12-31, day 19722) for the
C9 witness. -/
def bucketW : Bucket :=
  { date := 19722 * 86400000, key := getBucketKey (19722 * 86400000) .week,
    conversations := 0, messages := 0, granularity := .week }

/-- The selection-index invariant of spec §3: when both indices are
non-null, `0 ≤ start ≤ end < bucket count`. -/
def selInvariant (st : SliderState) : Prop :=
  ∀ a b, st.selectionStart = some a → st.selectionEnd = some b →
    0 ≤ a ∧ a ≤ b ∧ b < (st.buckets.length : Int)

/-- The first bucket of `processData convsTwo` (2024-01-01). -/
def bucketD1 : Bucket :=
  { date := 19723 * 86400000, key := "2024-01-01", conversations := 1,
    messages := 3, granularity := .day }

/-- The second bucket of `processData convsTwo` (2024-01-02). -/
def bucketD2 : Bucket :=
  { date := 19724 * 86400000, key := "2024-01-02", conversations := 1,
    messages := 4, granularity := .day }

/-- The projection of a bucket that aggregation never changes. -/
def bucketShape (b : Bucket) : Int × String × Granularity :=
  (b.date, b.key, b.granularity)

/-- The spec's scenario-7 conversation list: span 69 days, weekly buckets. -/
def csW : List Conv :=
  [{ project := "a", date := "2024-01-01", messages := 5 },
   { project := "b", date := "2024-03-10", messages := 2 }]

/-- Concrete instance for C7: an empty cache, chat `proj1/chat1`. -/
def detailState0 : DetailState :=
  { chatCache := [], selectedChatId := "", detailEmptyVisible := true,
    detailEmptyText := "", detailContentVisible := false,
    detailLoadingVisible := false, renderedChat := none, loggedErrors := 0 }

/-- Concrete chat-detail payload for the C7/C8 witnesses. -/
def chatData1 : ChatData :=
  { title := "t", projectName := "p", messageCount := 1,
    projectDir := "proj1", chatId := "chat1" }

/-! ## Helper lemmas -/

theorem cacheGet_cacheSet (c : List (String × ChatData)) (k : String) (d : ChatData) :
    cacheGet (cacheSet c k d) k = some d := by
  induction c with
  | nil => simp [cacheSet, cacheGet, List.find?]
  | cons p ps ih =>
    by_cases hp : p.1 == k
    · simp [cacheSet, hp, cacheGet, List.find?]
    · simp only [cacheSet, hp, Bool.false_eq_true, if_false]
      simpa [cacheGet, List.find?, hp] using ih

theorem lowerStr_eq_empty_iff (s : String) : lowerStr s = "" ↔ s = "" := by
  rw [String.ext_iff, String.ext_iff]
  simp [lowerStr]

theorem matchesFolderB_iff (st : FilterState) (c : Card) :
    matchesFolderB st c = true ↔ folderPred st c := by
  simp [matchesFolderB, folderPred]

theorem matchesSearchB_iff (st : FilterState) (c : Card) (raw : String)
    (h : st.searchTerm = lowerStr raw) :
    matchesSearchB st c = true ↔ searchPredCI raw c := by
  simp [matchesSearchB, searchPredCI, h, lowerStr_eq_empty_iff]
  tauto

theorem matchesWarmupB_iff (st : FilterState) (c : Card) :
    matchesWarmupB st c = true ↔ warmupPred st c := by
  unfold matchesWarmupB warmupPred
  cases hw : st.ignoreWarmup <;> simp

theorem matchesDateRangeB_iff (st : FilterState) (c : Card) :
    matchesDateRangeB st c = true ↔ datePred st c := by
  unfold matchesDateRangeB datePred
  cases hs : st.dateRangeStart with
  | none =>
    cases he : st.dateRangeEnd with
    | none => simp
    | some e =>
      cases hp : parseDate c.dateStr with
      | none => simp [hp]
      | some t => simp [hp]
  | some s =>
    cases he : st.dateRangeEnd with
    | none =>
      cases hp : parseDate c.dateStr with
      | none => simp [hp]
      | some t => simp [hp]
    | some e =>
      cases hp : parseDate c.dateStr with
      | none => simp [hp]
      | some t => simp [hp]

/-! ## Claim theorems -/

/-- Claim C1: after `filterChats` runs, a chat card is visible (display
`''` rather than `'none'`) iff it passes the conjunction of all active
predicates — folder match, case-insensitive substring search match, the
inclusive date-range check on whichever bounds are set (for a parseable
card timestamp), and, in the detail-panel variant, the warmup exclusion.
The hypothesis `hterm` records that the stored search term is the
lower-cased input, as `handleSearch` guarantees. -/
theorem filterChats_visibility (st : FilterState) (raw : String) (cards : List Card)
    (c : Card) (dD dE : String)
    (hterm : st.searchTerm = lowerStr raw)
    (hmemD : (c, dD) ∈ filterChatsDetail st cards)
    (hmemE : (c, dE) ∈ filterChatsExplorer st cards) :
    (dD = "" ↔
      folderPred st c ∧ searchPredCI raw c ∧ datePred st c ∧ warmupPred st c) ∧
    (dE = "" ↔ folderPred st c ∧ searchPredCI raw c ∧ datePred st c) := by
  have hD : dD = (if cardVisibleDetail st c then "" else "none") := by
    rcases List.mem_map.mp hmemD with ⟨c', _, heq⟩
    injection heq with h1 h2
    subst h1
    exact h2.symm
  have hE : dE = (if cardVisibleExplorer st c then "" else "none") := by
    rcases List.mem_map.mp hmemE with ⟨c', _, heq⟩
    injection heq with h1 h2
    subst h1
    exact h2.symm
  have hvisD : dD = "" ↔ cardVisibleDetail st c = true := by
    rw [hD]; by_cases hv : cardVisibleDetail st c <;> simp [hv]
  have hvisE : dE = "" ↔ cardVisibleExplorer st c = true := by
    rw [hE]; by_cases hv : cardVisibleExplorer st c <;> simp [hv]
  constructor
  · rw [hvisD]
    simp only [cardVisibleDetail, Bool.and_eq_true]
    rw [matchesFolderB_iff, matchesSearchB_iff st c raw hterm,
      matchesDateRangeB_iff, matchesWarmupB_iff]
    tauto
  · rw [hvisE]
    simp only [cardVisibleExplorer, Bool.and_eq_true]
    rw [matchesFolderB_iff, matchesSearchB_iff st c raw hterm,
      matchesDateRangeB_iff]
    tauto

/-- Witness for C1: the concrete card passes all four predicates and is
indeed displayed by both `filterChats` variants. -/
theorem filterChats_visibility_witness :
    (("" : String) = "" ↔
      folderPred filterState1 card1 ∧ searchPredCI "Hello" card1 ∧
        datePred filterState1 card1 ∧ warmupPred filterState1 card1) ∧
    (("" : String) = "" ↔
      folderPred filterState1 card1 ∧ searchPredCI "Hello" card1 ∧
        datePred filterState1 card1) :=
  filterChats_visibility filterState1 "Hello" [card1] card1 "" "" rfl
    (by decide) (by decide)

/-- Counterexample to claim C3 as stated: with an active date range and an
unparseable card date (`"not-a-date"`), `filterChats` leaves the card
visible (display `''`) in both variants — it does not exclude it. -/
theorem filterChats_unparseable_included :
    parseDate card3.dateStr = none ∧
    filterState3.dateRangeStart.isSome = true ∧
    filterState3.dateRangeEnd.isSome = true ∧
    filterChatsDetail filterState3 [card3] = [(card3, "")] ∧
    filterChatsExplorer filterState3 [card3] = [(card3, "")] := by
  decide

/-- Claim C3 as amended: when a card's date attribute is unparseable, the
date-range predicate of `filterChats` is vacuously true regardless of the
active bounds, so the card is shown iff the remaining predicates pass. -/
theorem filterChats_unparseable_date (st : FilterState) (c : Card)
    (hparse : parseDate c.dateStr = none) :
    cardVisibleDetail st c
      = (matchesFolderB st c && matchesSearchB st c && matchesWarmupB st c) ∧
    cardVisibleExplorer st c = (matchesFolderB st c && matchesSearchB st c) := by
  have hd : matchesDateRangeB st c = true := by
    unfold matchesDateRangeB
    split
    · rw [hparse]
    · rfl
  constructor
  · simp [cardVisibleDetail, hd]
  · simp [cardVisibleExplorer, hd]

theorem render_notifications (st : SliderState) :
    (render st).notifications = st.notifications := rfl

theorem render_selectionStart (st : SliderState) :
    (render st).selectionStart = st.selectionStart := rfl

theorem render_selectionEnd (st : SliderState) :
    (render st).selectionEnd = st.selectionEnd := rfl

theorem render_buckets (st : SliderState) :
    (render st).buckets = st.buckets := rfl

theorem render_currentMetric (st : SliderState) :
    (render st).currentMetric = st.currentMetric := rfl

theorem render_clearBtnVisible (st : SliderState) :
    (render st).clearBtnVisible = st.clearBtnVisible := rfl

theorem render_rendered (st : SliderState) :
    (render st).rendered
      = renderBars st.buckets st.selectionStart st.selectionEnd st.currentMetric := rfl

theorem updateRangeDisplay_notifications (st : SliderState) :
    (updateRangeDisplay st).notifications = st.notifications := by
  unfold updateRangeDisplay
  split
  · rfl
  · split <;> rfl

theorem updateRangeDisplay_selectionStart (st : SliderState) :
    (updateRangeDisplay st).selectionStart = st.selectionStart := by
  unfold updateRangeDisplay
  split
  · rfl
  · split <;> rfl

theorem updateRangeDisplay_selectionEnd (st : SliderState) :
    (updateRangeDisplay st).selectionEnd = st.selectionEnd := by
  unfold updateRangeDisplay
  split
  · rfl
  · split <;> rfl

theorem updateRangeDisplay_buckets (st : SliderState) :
    (updateRangeDisplay st).buckets = st.buckets := by
  unfold updateRangeDisplay
  split
  · rfl
  · split <;> rfl

theorem updateRangeDisplay_currentMetric (st : SliderState) :
    (updateRangeDisplay st).currentMetric = st.currentMetric := by
  unfold updateRangeDisplay
  split
  · rfl
  · split <;> rfl

theorem updateRangeDisplay_clearBtnVisible (st : SliderState) :
    (updateRangeDisplay st).clearBtnVisible = st.clearBtnVisible := by
  unfold updateRangeDisplay
  split
  · rfl
  · split <;> rfl

theorem notifyDates_set_notifications (st : SliderState)
    (n : List (Option Int × Option Int)) :
    notifyDates { st with notifications := n } = notifyDates st := rfl

/-- Claim C10: the public `setSelection` with a non-null start updates the
selection indices (first-bucket-at-or-after lookups with `-1` clamping), the
clear affordance, and the rendered bars (which afterwards reflect the new
selection), but leaves the notification log untouched — it never invokes the
registered range-change callback.  The callback is invoked exactly by
`clearSelection` and `filterByFolder` (with `(null, null)`) and by drag
completion `handleMouseUp` (with the normalized selection's dates), while
`handleMouseDown`/`handleMouseMove` never notify. -/
theorem setSelection_no_notify (sd : Int) (ed : Option Int)
    (st stM stU stC stF : SliderState) (idx : Option Int) (cd : List Conv)
    (f : String) (i : Int)
    (hU1 : stU.isDragging = true) (hU2 : stU.selectionStart = some i) :
    (setSelection (some sd) ed st).notifications = st.notifications ∧
    (setSelection (some sd) ed st).selectionStart
      = some (if findIndexJS (fun b => decide (sd ≤ b.date)) st.buckets = -1 then 0
              else findIndexJS (fun b => decide (sd ≤ b.date)) st.buckets) ∧
    (setSelection (some sd) ed st).selectionEnd
      = some (if findIndexJS (fun b => decide (ed.getD sd ≤ b.date)) st.buckets = -1
              then (st.buckets.length : Int) - 1
              else findIndexJS (fun b => decide (ed.getD sd ≤ b.date)) st.buckets) ∧
    (setSelection (some sd) ed st).clearBtnVisible = true ∧
    (setSelection (some sd) ed st).rendered
      = renderBars (setSelection (some sd) ed st).buckets
          ((setSelection (some sd) ed st).selectionStart)
          ((setSelection (some sd) ed st).selectionEnd)
          ((setSelection (some sd) ed st).currentMetric) ∧
    (handleMouseDown idx stM).notifications = stM.notifications ∧
    (handleMouseMove idx stM).notifications = stM.notifications ∧
    (clearSelection stC).notifications = stC.notifications ++ [(none, none)] ∧
    (filterByFolder cd f stF).notifications = stF.notifications ++ [(none, none)] ∧
    (handleMouseUp stU).notifications
      = stU.notifications ++ [notifyDates (handleMouseUp stU)] := by
  have hss : (setSelection (some sd) ed st).selectionStart
      = some (if findIndexJS (fun b => decide (sd ≤ b.date)) st.buckets = -1 then 0
              else findIndexJS (fun b => decide (sd ≤ b.date)) st.buckets) := by
    show (render (updateRangeDisplay _)).selectionStart = _
    rw [render_selectionStart, updateRangeDisplay_selectionStart]
  have hse : (setSelection (some sd) ed st).selectionEnd
      = some (if findIndexJS (fun b => decide (ed.getD sd ≤ b.date)) st.buckets = -1
              then (st.buckets.length : Int) - 1
              else findIndexJS (fun b => decide (ed.getD sd ≤ b.date)) st.buckets) := by
    show (render (updateRangeDisplay _)).selectionEnd = _
    rw [render_selectionEnd, updateRangeDisplay_selectionEnd]
  have hb : (setSelection (some sd) ed st).buckets = st.buckets := by
    show (render (updateRangeDisplay _)).buckets = _
    rw [render_buckets, updateRangeDisplay_buckets]
  have hm : (setSelection (some sd) ed st).currentMetric = st.currentMetric := by
    show (render (updateRangeDisplay _)).currentMetric = _
    rw [render_currentMetric, updateRangeDisplay_currentMetric]
  refine ⟨?_, hss, hse, ?_, ?_, ?_, ?_, ?_, ?_, ?_⟩
  · show (render (updateRangeDisplay _)).notifications = _
    rw [render_notifications, updateRangeDisplay_notifications]
  · show (render (updateRangeDisplay _)).clearBtnVisible = _
    rw [render_clearBtnVisible, updateRangeDisplay_clearBtnVisible]
  · rw [hb, hm, hss, hse]
    show (render (updateRangeDisplay _)).rendered = _
    rw [render_rendered, updateRangeDisplay_buckets, updateRangeDisplay_selectionStart,
      updateRangeDisplay_selectionEnd, updateRangeDisplay_currentMetric]
  · cases idx <;> rfl
  · cases hd : stM.isDragging <;> cases idx <;> simp [handleMouseMove, hd, render]
  · simp [clearSelection, notifyRangeChange, render, notifyDates]
  · simp [filterByFolder, notifyRangeChange, render, notifyDates]
  · simp only [handleMouseUp, hU1, Bool.true_eq_false, if_false, hU2,
      notifyRangeChange, notifyDates_set_notifications,
      updateRangeDisplay_notifications]

/-- Witness for C10 at the concrete slider states. -/
theorem setSelection_no_notify_witness :
    (setSelection (some 0) none slider0).notifications = slider0.notifications ∧
    (setSelection (some 0) none slider0).selectionStart
      = some (if findIndexJS (fun b => decide ((0 : Int) ≤ b.date)) slider0.buckets = -1
              then 0
              else findIndexJS (fun b => decide ((0 : Int) ≤ b.date)) slider0.buckets) ∧
    (setSelection (some 0) none slider0).selectionEnd
      = some (if findIndexJS (fun b => decide ((Option.none.getD (0 : Int)) ≤ b.date))
                  slider0.buckets = -1
              then (slider0.buckets.length : Int) - 1
              else findIndexJS (fun b => decide ((Option.none.getD (0 : Int)) ≤ b.date))
                  slider0.buckets) ∧
    (setSelection (some 0) none slider0).clearBtnVisible = true ∧
    (setSelection (some 0) none slider0).rendered
      = renderBars (setSelection (some 0) none slider0).buckets
          ((setSelection (some 0) none slider0).selectionStart)
          ((setSelection (some 0) none slider0).selectionEnd)
          ((setSelection (some 0) none slider0).currentMetric) ∧
    (handleMouseDown (some 1) slider0).notifications = slider0.notifications ∧
    (handleMouseMove (some 1) slider0).notifications = slider0.notifications ∧
    (clearSelection slider0).notifications = slider0.notifications ++ [(none, none)] ∧
    (filterByFolder convsTwo "a" slider0).notifications
      = slider0.notifications ++ [(none, none)] ∧
    (handleMouseUp sliderDrag).notifications
      = sliderDrag.notifications ++ [notifyDates (handleMouseUp sliderDrag)] :=
  setSelection_no_notify 0 none slider0 slider0 sliderDrag slider0 slider0 (some 1)
    convsTwo "a" 0 rfl rfl

theorem msPerDay_pos : (0 : Int) < msPerDay := by decide

theorem floorDay_sub_days (t k : Int) :
    floorDay (t - k * msPerDay) = floorDay t - k := by
  unfold floorDay
  have h : t - k * msPerDay = t + (-k) * msPerDay := by ring
  rw [h, Int.add_mul_ediv_right _ _ (by decide : msPerDay ≠ 0)]
  ring

/-- `getBucketKey` at weekly granularity is the ISO date of the Sunday day
number `sundayOfDay (floorDay t)`. -/
theorem getBucketKey_week (t : Int) :
    getBucketKey t .week = isoDateOfDay (sundayOfDay (floorDay t)) := by
  show isoDateOfDay (floorDay (t - getDayJS t * msPerDay)) = _
  unfold getDayJS sundayOfDay
  rw [floorDay_sub_days]

/-- `getBucketKey` at daily granularity is the ISO date of the day itself. -/
theorem getBucketKey_day (t : Int) :
    getBucketKey t .day = isoDateOfDay (floorDay t) := rfl

/-- Claim C9: the bucket key is the ISO date of the week's Sunday (weekly)
or of the day itself (daily); the Sunday day number is an actual Sunday at
most six days back; and a conversation timestamp covered by a bucket's unit
produces exactly that bucket's key (for a bucket whose key is well-formed,
as `createBuckets` builds them), so the aggregation loop increments the
covering bucket. -/
theorem bucketKey_agrees (t : Int) (g : Granularity) (b : Bucket)
    (hk : b.key = getBucketKey b.date g) (hc : coversUnit g b t) :
    getBucketKey t g = b.key ∧
    getBucketKey t .week = isoDateOfDay (sundayOfDay (floorDay t)) ∧
    weekdayOfDay (sundayOfDay (floorDay t)) = 0 ∧
    sundayOfDay (floorDay t) ≤ floorDay t ∧
    floorDay t ≤ sundayOfDay (floorDay t) + 6 ∧
    getBucketKey t .day = isoDateOfDay (floorDay t) := by
  refine ⟨?_, getBucketKey_week t, ?_, ?_, ?_, getBucketKey_day t⟩
  · cases g with
    | day =>
      rw [getBucketKey_day, hk, getBucketKey_day]
      rw [show floorDay b.date = floorDay t from hc]
    | week =>
      rw [getBucketKey_week, hk, getBucketKey_week]
      obtain ⟨h1, h2, h3⟩ : weekdayOfDay (floorDay b.date) = 0 ∧
          floorDay b.date ≤ floorDay t ∧ floorDay t ≤ floorDay b.date + 6 := hc
      have hsun : sundayOfDay (floorDay t) = sundayOfDay (floorDay b.date) := by
        unfold weekdayOfDay at h1
        unfold sundayOfDay weekdayOfDay
        omega
      rw [hsun]
  · unfold sundayOfDay weekdayOfDay
    omega
  · unfold sundayOfDay weekdayOfDay
    omega
  · unfold sundayOfDay weekdayOfDay
    omega

/-- Witness for C9: a timestamp on Monday 2024-01-01 lies in `bucketW`'s
week and produces its key. -/
theorem bucketKey_agrees_witness :
    getBucketKey (19723 * 86400000 + 5000) .week = bucketW.key ∧
    getBucketKey (19723 * 86400000 + 5000) .week
      = isoDateOfDay (sundayOfDay (floorDay (19723 * 86400000 + 5000))) ∧
    weekdayOfDay (sundayOfDay (floorDay (19723 * 86400000 + 5000))) = 0 ∧
    sundayOfDay (floorDay (19723 * 86400000 + 5000))
      ≤ floorDay (19723 * 86400000 + 5000) ∧
    floorDay (19723 * 86400000 + 5000)
      ≤ sundayOfDay (floorDay (19723 * 86400000 + 5000)) + 6 ∧
    getBucketKey (19723 * 86400000 + 5000) .day
      = isoDateOfDay (floorDay (19723 * 86400000 + 5000)) :=
  bucketKey_agrees (19723 * 86400000 + 5000) .week bucketW rfl
    (by unfold coversUnit bucketW; decide)

/-! ### `findIndexJS` lemmas (for claims C4 and C5) -/

theorem findIndexJS_eq_neg_one {α} (p : α → Bool) (l : List α)
    (h : ∀ a ∈ l, p a = false) : findIndexJS p l = -1 := by
  induction l with
  | nil => rfl
  | cons a as ih =>
    have ha := h a (by simp)
    simp only [findIndexJS, ha, Bool.false_eq_true, if_false]
    rw [ih fun x hx => h x (by simp [hx])]
    rfl

theorem findIndexJS_bounds {α} (p : α → Bool) (l : List α)
    (h : findIndexJS p l ≠ -1) :
    0 ≤ findIndexJS p l ∧ findIndexJS p l < (l.length : Int) := by
  induction l with
  | nil => simp [findIndexJS] at h
  | cons a as ih =>
    by_cases hp : p a
    · simp [findIndexJS, hp]
    · simp only [findIndexJS, hp, Bool.false_eq_true, if_false] at h ⊢
      by_cases hr : findIndexJS p as = -1
      · rw [if_pos hr] at h
        exact absurd rfl h
      · rw [if_neg hr] at h ⊢
        have := ih hr
        simp only [List.length_cons]
        push_cast
        omega

theorem findIndexJS_found {α} (p : α → Bool) (l : List α)
    (h : findIndexJS p l ≠ -1) :
    ∃ a, l[(findIndexJS p l).toNat]? = some a ∧ p a = true := by
  induction l with
  | nil => simp [findIndexJS] at h
  | cons a as ih =>
    by_cases hp : p a
    · exact ⟨a, by simp [findIndexJS, hp], hp⟩
    · simp only [findIndexJS, hp, Bool.false_eq_true, if_false] at h ⊢
      by_cases hr : findIndexJS p as = -1
      · rw [if_pos hr] at h
        exact absurd rfl h
      · rw [if_neg hr] at h ⊢
        obtain ⟨x, hx, hpx⟩ := ih hr
        have hb := findIndexJS_bounds p as hr
        refine ⟨x, ?_, hpx⟩
        have ht : ((findIndexJS p as + 1).toNat) = (findIndexJS p as).toNat + 1 := by
          omega
        rw [ht, List.getElem?_cons_succ]
        exact hx

theorem findIndexJS_le_of_mem {α} (p : α → Bool) (l : List α) (j : Nat) (a : α)
    (hj : l[j]? = some a) (hp : p a = true) :
    findIndexJS p l ≠ -1 ∧ findIndexJS p l ≤ (j : Int) := by
  induction l generalizing j with
  | nil => simp at hj
  | cons x xs ih =>
    by_cases hx : p x
    · simp [findIndexJS, hx]
    · cases j with
      | zero =>
        simp only [List.getElem?_cons_zero, Option.some.injEq] at hj
        subst hj
        exact absurd hp hx
      | succ n =>
        simp only [List.getElem?_cons_succ] at hj
        obtain ⟨hne, hle⟩ := ih n hj
        have hb := findIndexJS_bounds p xs hne
        simp only [findIndexJS, hx, Bool.false_eq_true, if_false]
        rw [if_neg hne]
        constructor
        · omega
        · push_cast
          omega

theorem notify_selectionStart (st : SliderState) :
    (notifyRangeChange st).selectionStart = st.selectionStart := rfl

theorem notify_selectionEnd (st : SliderState) :
    (notifyRangeChange st).selectionEnd = st.selectionEnd := rfl

theorem notify_buckets (st : SliderState) :
    (notifyRangeChange st).buckets = st.buckets := rfl

/-- Counterexample to claim C5 as stated: `setSelection` performs no
ordering check, so calling it with `startDate` after `endDate` (both within
the dataset) leaves `selectionStart = 1 > selectionEnd = 0` — both non-null
and violating `start ≤ end`. -/
theorem selection_invariant_counterexample :
    (setSelection (some (19724 * 86400000)) (some (19723 * 86400000))
        slider0).selectionStart = some 1 ∧
    (setSelection (some (19724 * 86400000)) (some (19723 * 86400000))
        slider0).selectionEnd = some 0 ∧
    ¬ selInvariant (setSelection (some (19724 * 86400000))
        (some (19723 * 86400000)) slider0) := by
  refine ⟨by decide, by decide, ?_⟩
  intro h
  have h2 := h 1 0 (by decide) (by decide)
  omega

/-- Claim C5 as amended: after drag completion (`handleMouseUp`, whose
in-drag indices are bar indices and hence in range) and after `setSelection`
on a nonempty bucket list with `startDate ≤ endDate`, both selection indices
are non-null and satisfy `0 ≤ start ≤ end < bucket count`. -/
theorem selection_invariant_amended (st stU : SliderState) (sd : Int)
    (ed : Option Int) (i : Int)
    (hne : st.buckets ≠ [])
    (hle : sd ≤ ed.getD sd)
    (hU1 : stU.isDragging = true) (hU2 : stU.selectionStart = some i)
    (hiR : 0 ≤ i ∧ i < (stU.buckets.length : Int))
    (hjR : ∀ j, stU.selectionEnd = some j → 0 ≤ j ∧ j < (stU.buckets.length : Int)) :
    selInvariant (setSelection (some sd) ed st) ∧ selInvariant (handleMouseUp stU) := by
  have hlen : 0 < (st.buckets.length : Int) := by
    have := List.length_pos.mpr hne
    omega
  constructor
  · -- setSelection
    have hbk : (setSelection (some sd) ed st).buckets = st.buckets := by
      show (render (updateRangeDisplay _)).buckets = _
      rw [render_buckets, updateRangeDisplay_buckets]
    have hss : (setSelection (some sd) ed st).selectionStart
        = some (if findIndexJS (fun b => decide (sd ≤ b.date)) st.buckets = -1 then 0
                else findIndexJS (fun b => decide (sd ≤ b.date)) st.buckets) := by
      show (render (updateRangeDisplay _)).selectionStart = _
      rw [render_selectionStart, updateRangeDisplay_selectionStart]
    have hse : (setSelection (some sd) ed st).selectionEnd
        = some (if findIndexJS (fun b => decide (ed.getD sd ≤ b.date)) st.buckets = -1
                then (st.buckets.length : Int) - 1
                else findIndexJS (fun b => decide (ed.getD sd ≤ b.date)) st.buckets) := by
      show (render (updateRangeDisplay _)).selectionEnd = _
      rw [render_selectionEnd, updateRangeDisplay_selectionEnd]
    intro a b ha hb
    rw [hss] at ha
    rw [hse] at hb
    rw [hbk]
    injection ha with ha'
    injection hb with hb'
    subst ha' hb'
    by_cases hE : findIndexJS (fun b => decide (ed.getD sd ≤ b.date)) st.buckets = -1
    · rw [if_pos hE]
      by_cases hS : findIndexJS (fun b => decide (sd ≤ b.date)) st.buckets = -1
      · rw [if_pos hS]
        omega
      · rw [if_neg hS]
        have := findIndexJS_bounds _ _ hS
        omega
    · rw [if_neg hE]
      have hbE := findIndexJS_bounds _ _ hE
      obtain ⟨a0, ha0, hpa0⟩ := findIndexJS_found _ _ hE
      have hda0 : ed.getD sd ≤ a0.date := of_decide_eq_true hpa0
      have hps : (fun b => decide (sd ≤ b.date)) a0 = true :=
        decide_eq_true (le_trans hle hda0)
      obtain ⟨hSne, hSle⟩ :=
        findIndexJS_le_of_mem (fun b => decide (sd ≤ b.date)) st.buckets _ a0 ha0 hps
      rw [if_neg hSne]
      have hbS := findIndexJS_bounds _ _ hSne
      omega
  · -- handleMouseUp
    have hmu : handleMouseUp stU
        = notifyRangeChange (updateRangeDisplay
            { stU with isDragging := false,
                       selectionStart := some (min i (stU.selectionEnd.getD i)),
                       selectionEnd := some (max i (stU.selectionEnd.getD i)),
                       clearBtnVisible := true }) := by
      unfold handleMouseUp
      rw [hU1]
      simp only [Bool.true_eq_false, if_false]
      rw [show ({ stU with isDragging := false } : SliderState).selectionStart
          = stU.selectionStart from rfl, hU2]
    have hRs : (handleMouseUp stU).selectionStart
        = some (min i (stU.selectionEnd.getD i)) := by
      rw [hmu, notify_selectionStart, updateRangeDisplay_selectionStart]
    have hRe : (handleMouseUp stU).selectionEnd
        = some (max i (stU.selectionEnd.getD i)) := by
      rw [hmu, notify_selectionEnd, updateRangeDisplay_selectionEnd]
    have hRb : (handleMouseUp stU).buckets = stU.buckets := by
      rw [hmu, notify_buckets, updateRangeDisplay_buckets]
    intro a b ha hb
    rw [hRs] at ha
    rw [hRe] at hb
    rw [hRb]
    injection ha with ha'
    injection hb with hb'
    subst ha' hb'
    cases hEo : stU.selectionEnd with
    | none =>
      simp only [Option.getD_none, min_self, max_self]
      omega
    | some j =>
      have hjb := hjR j hEo
      simp only [Option.getD_some]
      rcases le_total i j with hij | hij
      · rw [min_eq_left hij, max_eq_right hij]
        omega
      · rw [min_eq_right hij, max_eq_left hij]
        omega

/-- Witness for the amended C5: a genuine `setSelection` with ordered
bounds and a genuine drag completion on the concrete two-bucket slider. -/
theorem selection_invariant_amended_witness :
    selInvariant (setSelection (some (19723 * 86400000))
      (some (19724 * 86400000)) slider0) ∧
    selInvariant (handleMouseUp sliderDrag) :=
  selection_invariant_amended slider0 sliderDrag (19723 * 86400000)
    (some (19724 * 86400000)) 0 (by decide) (by decide) rfl rfl (by decide)
    (by intro j hj; injection hj with hj'; subst hj'; decide)

theorem pairwise_dates_le (l : List Bucket)
    (hs : List.Pairwise (fun a b => a.date ≤ b.date) l)
    (m n : Nat) (x y : Bucket) (hm : l[m]? = some x) (hn : l[n]? = some y)
    (hmn : m ≤ n) : x.date ≤ y.date := by
  rcases Nat.lt_or_eq_of_le hmn with hlt | heq
  · obtain ⟨hmlen, hmx⟩ := List.getElem?_eq_some.mp hm
    obtain ⟨hnlen, hny⟩ := List.getElem?_eq_some.mp hn
    have := List.pairwise_iff_get.mp hs ⟨m, hmlen⟩ ⟨n, hnlen⟩ hlt
    simpa [List.get_eq_getElem, hmx, hny] using this
  · subst heq
    rw [hm] at hn
    injection hn with hxy
    rw [hxy]

/-- Counterexample to claim C4 as stated: on the two daily buckets of
`convsTwo` (2024-01-01 and 2024-01-02, so the request below lies within the
dataset's date bounds), a requested range strictly inside the first bucket
is mapped by `setSelection` to the *second* bucket, so the returned bucket
range starts after the requested range and does not contain it. -/
theorem setSelection_roundtrip_counterexample :
    minDateOf convsTwo = some (19723 * 86400000) ∧
    maxDateOf convsTwo = some (19724 * 86400000) ∧
    (19723 * 86400000 : Int) ≤ 19723 * 86400000 + 3600000 ∧
    (19723 * 86400000 + 7200000 : Int) ≤ endOfDayMs (19724 * 86400000) ∧
    getSelection (setSelection (some (19723 * 86400000 + 3600000))
        (some (19723 * 86400000 + 7200000)) slider0)
      = some (some (19724 * 86400000), some (19724 * 86400000)) ∧
    ¬ ((19724 * 86400000 : Int) ≤ 19723 * 86400000 + 3600000) := by
  decide

/-- Claim C4 as amended: `setSelection` maps each requested bound to the
first bucket whose date is at or after it (so a bound strictly inside a
bucket is rounded up to the next bucket and containment can fail); when both
requested bounds coincide with bucket start dates of a date-sorted bucket
list, `getSelection` returns exactly the requested pair, whose bucket range
`[startDate, endOfDay endDate]` contains the request; and a request lying
wholly after the dataset is clamped — the failed start lookup to the first
bucket and the failed end lookup to the last bucket. -/
theorem setSelection_roundtrip_amended (st : SliderState) (i j : Nat)
    (bi bj : Bucket)
    (hsorted : List.Pairwise (fun a b => a.date ≤ b.date) st.buckets)
    (hi : st.buckets[i]? = some bi) (hj : st.buckets[j]? = some bj)
    (hij : bi.date ≤ bj.date)
    (st2 : SliderState) (sd2 edT2 : Int)
    (hall : ∀ b ∈ st2.buckets, b.date < sd2) (hle2 : sd2 ≤ edT2) :
    getSelection (setSelection (some bi.date) (some bj.date) st)
      = some (some bi.date, some bj.date) ∧
    bi.date ≤ bi.date ∧ bj.date ≤ endOfDayMs bj.date ∧
    (setSelection (some sd2) (some edT2) st2).selectionStart = some 0 ∧
    (setSelection (some sd2) (some edT2) st2).selectionEnd
      = some ((st2.buckets.length : Int) - 1) := by
  have hips : (fun b => decide (bi.date ≤ b.date)) bi = true :=
    decide_eq_true (le_refl _)
  have hipe : (fun b => decide (bj.date ≤ b.date)) bj = true :=
    decide_eq_true (le_refl _)
  obtain ⟨hSne, hSle⟩ :=
    findIndexJS_le_of_mem (fun b => decide (bi.date ≤ b.date)) st.buckets i bi hi hips
  obtain ⟨hEne, hEle⟩ :=
    findIndexJS_le_of_mem (fun b => decide (bj.date ≤ b.date)) st.buckets j bj hj hipe
  have hbS := findIndexJS_bounds _ _ hSne
  have hbE := findIndexJS_bounds _ _ hEne
  obtain ⟨aS, haS, hpaS⟩ := findIndexJS_found _ _ hSne
  obtain ⟨aE, haE, hpaE⟩ := findIndexJS_found _ _ hEne
  have haSd : aS.date = bi.date := by
    have h1 : bi.date ≤ aS.date := of_decide_eq_true hpaS
    have h2 : aS.date ≤ bi.date := by
      refine pairwise_dates_le st.buckets hsorted _ i aS bi haS hi ?_
      omega
    omega
  have haEd : aE.date = bj.date := by
    have h1 : bj.date ≤ aE.date := of_decide_eq_true hpaE
    have h2 : aE.date ≤ bj.date := by
      refine pairwise_dates_le st.buckets hsorted _ j aE bj haE hj ?_
      omega
    omega
  have hs0e0 : findIndexJS (fun b => decide (bi.date ≤ b.date)) st.buckets
      ≤ findIndexJS (fun b => decide (bj.date ≤ b.date)) st.buckets := by
    have hpsE : (fun b => decide (bi.date ≤ b.date)) aE = true :=
      decide_eq_true (le_trans hij (of_decide_eq_true hpaE))
    obtain ⟨_, hle'⟩ :=
      findIndexJS_le_of_mem (fun b => decide (bi.date ≤ b.date)) st.buckets _ aE haE hpsE
    omega
  have hss0 : (setSelection (some bi.date) (some bj.date) st).selectionStart
      = some (if findIndexJS (fun b => decide (bi.date ≤ b.date)) st.buckets = -1
              then 0
              else findIndexJS (fun b => decide (bi.date ≤ b.date)) st.buckets) := by
    show (render (updateRangeDisplay _)).selectionStart = _
    rw [render_selectionStart, updateRangeDisplay_selectionStart]
  have hse0 : (setSelection (some bi.date) (some bj.date) st).selectionEnd
      = some (if findIndexJS (fun b => decide (bj.date ≤ b.date)) st.buckets = -1
              then (st.buckets.length : Int) - 1
              else findIndexJS (fun b => decide (bj.date ≤ b.date)) st.buckets) := by
    show (render (updateRangeDisplay _)).selectionEnd = _
    rw [render_selectionEnd, updateRangeDisplay_selectionEnd]
    rfl
  have hRs : (setSelection (some bi.date) (some bj.date) st).selectionStart
      = some (findIndexJS (fun b => decide (bi.date ≤ b.date)) st.buckets) := by
    rw [hss0, if_neg hSne]
  have hRe : (setSelection (some bi.date) (some bj.date) st).selectionEnd
      = some (findIndexJS (fun b => decide (bj.date ≤ b.date)) st.buckets) := by
    rw [hse0, if_neg hEne]
  have hRb : (setSelection (some bi.date) (some bj.date) st).buckets = st.buckets := by
    show (render (updateRangeDisplay _)).buckets = _
    rw [render_buckets, updateRangeDisplay_buckets]
  have hidxS : idxGet st.buckets
      (findIndexJS (fun b => decide (bi.date ≤ b.date)) st.buckets) = some aS := by
    unfold idxGet
    rw [if_neg (not_lt.mpr hbS.1)]
    exact haS
  have hidxE : idxGet st.buckets
      (findIndexJS (fun b => decide (bj.date ≤ b.date)) st.buckets) = some aE := by
    unfold idxGet
    rw [if_neg (not_lt.mpr hbE.1)]
    exact haE
  refine ⟨?_, le_refl _, ?_, ?_, ?_⟩
  · unfold getSelection
    simp only [hRs, hRe, hRb, Option.getD_some]
    rw [min_eq_left hs0e0, max_eq_right hs0e0, hidxS, hidxE]
    simp [haSd, haEd]
  · unfold endOfDayMs floorDay msPerDay
    omega
  · have hS2 : findIndexJS (fun b => decide (sd2 ≤ b.date)) st2.buckets = -1 :=
      findIndexJS_eq_neg_one _ _ fun b hb =>
        decide_eq_false (not_le.mpr (hall b hb))
    have hs20 : (setSelection (some sd2) (some edT2) st2).selectionStart
        = some (if findIndexJS (fun b => decide (sd2 ≤ b.date)) st2.buckets = -1
                then 0
                else findIndexJS (fun b => decide (sd2 ≤ b.date)) st2.buckets) := by
      show (render (updateRangeDisplay _)).selectionStart = _
      rw [render_selectionStart, updateRangeDisplay_selectionStart]
    rw [hs20, if_pos hS2]
  · have hE2 : findIndexJS (fun b => decide (edT2 ≤ b.date)) st2.buckets = -1 :=
      findIndexJS_eq_neg_one _ _ fun b hb =>
        decide_eq_false (not_le.mpr (lt_of_lt_of_le (hall b hb) hle2))
    have he20 : (setSelection (some sd2) (some edT2) st2).selectionEnd
        = some (if findIndexJS (fun b => decide (edT2 ≤ b.date)) st2.buckets = -1
                then (st2.buckets.length : Int) - 1
                else findIndexJS (fun b => decide (edT2 ≤ b.date)) st2.buckets) := by
      show (render (updateRangeDisplay _)).selectionEnd = _
      rw [render_selectionEnd, updateRangeDisplay_selectionEnd]
      rfl
    rw [he20, if_pos hE2]

/-- Witness for the amended C4 on the concrete two-bucket slider. -/
theorem setSelection_roundtrip_amended_witness :
    getSelection (setSelection (some bucketD1.date) (some bucketD2.date) slider0)
      = some (some bucketD1.date, some bucketD2.date) ∧
    bucketD1.date ≤ bucketD1.date ∧ bucketD2.date ≤ endOfDayMs bucketD2.date ∧
    (setSelection (some (19730 * 86400000)) (some (19730 * 86400000))
        slider0).selectionStart = some 0 ∧
    (setSelection (some (19730 * 86400000)) (some (19730 * 86400000))
        slider0).selectionEnd = some ((slider0.buckets.length : Int) - 1) :=
  setSelection_roundtrip_amended slider0 0 1 bucketD1 bucketD2 (by decide)
    (by decide) (by decide) (by decide) slider0 (19730 * 86400000)
    (19730 * 86400000) (by decide) (by decide)

/-! ### Bucket-pipeline lemmas (for claim C2) -/

theorem stepMs_pos (g : Granularity) : 0 < stepMs g := by
  cases g <;> decide

theorem mem_bucketStarts_of (g : Granularity) (c e x : Int) (k : Nat)
    (hx : x = c + (k : Int) * stepMs g) (hce : c ≤ e) (hxe : x ≤ e) :
    x ∈ bucketStarts c e g := by
  unfold bucketStarts
  rw [if_pos hce]
  rw [List.mem_map]
  refine ⟨k, ?_, hx.symm⟩
  rw [List.mem_range]
  have hstep := stepMs_pos g
  have hk : (k : Int) ≤ (e - c) / stepMs g := by
    rw [Int.le_ediv_iff_mul_le hstep]
    omega
  have hq : 0 ≤ (e - c) / stepMs g := Int.ediv_nonneg (by omega) (by omega)
  omega

theorem insertBucket_append (m : List Bucket) (b : Bucket)
    (h : ∀ x ∈ m, x.key ≠ b.key) : insertBucket m b = m ++ [b] := by
  unfold insertBucket
  have hany : m.any (fun x => x.key == b.key) = false := by
    rw [List.any_eq_false]
    intro x hx
    simpa using h x hx
  rw [hany]
  simp

theorem foldl_insertBucket_eq_map (g : Granularity) (l : List Int)
    (acc : List Bucket)
    (hdisj : ∀ x ∈ acc, ∀ s ∈ l, x.key ≠ getBucketKey s g)
    (hpw : l.Pairwise (fun a b => getBucketKey a g ≠ getBucketKey b g)) :
    l.foldl (fun m cur => insertBucket m (mkBucket cur g)) acc
      = acc ++ l.map (fun s => mkBucket s g) := by
  induction l generalizing acc with
  | nil => simp
  | cons s l' ih =>
    rw [List.foldl_cons]
    rw [insertBucket_append acc (mkBucket s g)
      (fun x hx => hdisj x hx s (by simp))]
    rw [List.pairwise_cons] at hpw
    have hdisj' : ∀ x ∈ acc ++ [mkBucket s g], ∀ t ∈ l', x.key ≠ getBucketKey t g := by
      intro x hx t ht
      rcases List.mem_append.mp hx with hxa | hxs
      · exact hdisj x hxa t (by simp [ht])
      · have hxe : x = mkBucket s g := by simpa using hxs
        rw [hxe]
        exact hpw.1 t ht
    rw [ih (acc ++ [mkBucket s g]) hdisj' hpw.2]
    simp

theorem aggStep_shape (g : Granularity) (m : List Bucket) (c : Conv) :
    (aggStep g m c).map bucketShape = m.map bucketShape := by
  unfold aggStep
  cases parseDate c.date with
  | none => rfl
  | some t =>
    rw [List.map_map]
    refine List.map_congr_left fun b _ => ?_
    dsimp only [Function.comp]
    split <;> rfl

theorem foldl_aggStep_shape (g : Granularity) (cs : List Conv) (m : List Bucket) :
    ((cs.foldl (aggStep g) m).map bucketShape) = m.map bucketShape := by
  induction cs generalizing m with
  | nil => rfl
  | cons c cs' ih =>
    rw [List.foldl_cons, ih, aggStep_shape]

theorem mem_insertByDate (b x : Bucket) (l : List Bucket) :
    x ∈ insertByDate b l ↔ x = b ∨ x ∈ l := by
  induction l with
  | nil => simp [insertByDate]
  | cons y ys ih =>
    unfold insertByDate
    by_cases hlt : b.date < y.date
    · rw [if_pos hlt]
      simp
    · rw [if_neg hlt]
      simp only [List.mem_cons, ih]
      tauto

theorem mem_sortByDate (x : Bucket) (l : List Bucket) :
    x ∈ sortByDate l ↔ x ∈ l := by
  unfold sortByDate
  induction l with
  | nil => simp
  | cons y ys ih =>
    rw [List.foldr_cons, mem_insertByDate]
    simp only [List.mem_cons, ih]

theorem foldl_min_le_init (d : Int) (ds : List Int) : ds.foldl min d ≤ d := by
  induction ds generalizing d with
  | nil => simp
  | cons x xs ih =>
    rw [List.foldl_cons]
    exact le_trans (ih (min d x)) (min_le_left d x)

theorem le_foldl_max_init (d : Int) (ds : List Int) : d ≤ ds.foldl max d := by
  induction ds generalizing d with
  | nil => simp
  | cons x xs ih =>
    rw [List.foldl_cons]
    exact le_trans (le_max_left d x) (ih (max d x))

theorem minDate_le_maxDate (cs : List Conv) (minD maxD : Int)
    (hmin : minDateOf cs = some minD) (hmax : maxDateOf cs = some maxD) :
    minD ≤ maxD := by
  unfold minDateOf at hmin
  unfold maxDateOf at hmax
  cases hv : validDates cs with
  | nil => rw [hv] at hmin; exact absurd hmin (by simp)
  | cons d ds =>
    rw [hv] at hmin hmax
    injection hmin with hmin'
    injection hmax with hmax'
    calc minD = ds.foldl min d := hmin'.symm
    _ ≤ d := foldl_min_le_init d ds
    _ ≤ ds.foldl max d := le_foldl_max_init d ds
    _ = maxD := hmax'

/-- Claim C2: with at least one parseable conversation date, `processData`
chooses daily buckets when the ceiling-day span is at most 60 and weekly
buckets beyond that (recorded in every produced bucket's `granularity`
field), and produces one bucket for every day (resp. Sunday-aligned week)
unit between the minimum and maximum observed date inclusive — existence is
unconditional on the counts, so zero-count buckets are included.  `hkeys`
records that the loop's bucket keys are pairwise distinct, which is how the
string-keyed `Map` behaves on any actual date range (distinct days have
distinct ISO dates). -/
theorem processData_buckets (cs : List Conv) (minD maxD : Int)
    (hmin : minDateOf cs = some minD) (hmax : maxDateOf cs = some maxD)
    (hkeys : (bucketStarts (loopStartMs minD (granularityOf cs))
        (endOfDayMs maxD) (granularityOf cs)).Pairwise
        (fun a b => getBucketKey a (granularityOf cs)
          ≠ getBucketKey b (granularityOf cs))) :
    (spanDays cs ≤ 60 → granularityOf cs = .day) ∧
    (60 < spanDays cs → granularityOf cs = .week) ∧
    (∀ b ∈ processData cs, b.granularity = granularityOf cs) ∧
    (granularityOf cs = .day →
      ∀ u : Int, floorDay minD ≤ u → u ≤ floorDay maxD →
        ∃ b ∈ processData cs, b.date = u * msPerDay ∧ b.key = isoDateOfDay u) ∧
    (granularityOf cs = .week →
      ∀ u : Int, weekdayOfDay u = 0 → sundayOfDay (floorDay minD) ≤ u →
        u ≤ floorDay maxD →
        ∃ b ∈ processData cs, b.date = u * msPerDay ∧ b.key = isoDateOfDay u) := by
  have hminmax := minDate_le_maxDate cs minD maxD hmin hmax
  have hfm : floorDay minD ≤ floorDay maxD := by
    unfold floorDay
    exact Int.ediv_le_ediv (by decide) hminmax
  have hpd : processData cs = createBuckets minD maxD (granularityOf cs) cs := by
    unfold processData
    rw [hmin, hmax]
  have hempty : emptyBuckets (loopStartMs minD (granularityOf cs))
      (endOfDayMs maxD) (granularityOf cs)
      = (bucketStarts (loopStartMs minD (granularityOf cs)) (endOfDayMs maxD)
          (granularityOf cs)).map (fun s => mkBucket s (granularityOf cs)) := by
    unfold emptyBuckets
    rw [foldl_insertBucket_eq_map (granularityOf cs) _ [] (by simp) hkeys]
    simp
  have hmem : ∀ (u : Int) (k : Nat),
      u * msPerDay = loopStartMs minD (granularityOf cs)
        + (k : Int) * stepMs (granularityOf cs) →
      u * msPerDay ≤ endOfDayMs maxD →
      loopStartMs minD (granularityOf cs) ≤ endOfDayMs maxD →
      getBucketKey (u * msPerDay) (granularityOf cs) = isoDateOfDay u →
      ∃ b ∈ processData cs, b.date = u * msPerDay ∧ b.key = isoDateOfDay u := by
    intro u k hk hle hce hkey
    have hstarts : u * msPerDay ∈ bucketStarts (loopStartMs minD (granularityOf cs))
        (endOfDayMs maxD) (granularityOf cs) :=
      mem_bucketStarts_of (granularityOf cs) _ _ _ k hk hce hle
    have hbmem : mkBucket (u * msPerDay) (granularityOf cs)
        ∈ emptyBuckets (loopStartMs minD (granularityOf cs)) (endOfDayMs maxD)
            (granularityOf cs) := by
      rw [hempty]
      exact List.mem_map_of_mem _ hstarts
    have hshape : bucketShape (mkBucket (u * msPerDay) (granularityOf cs))
        ∈ ((cs.foldl (aggStep (granularityOf cs))
            (emptyBuckets (loopStartMs minD (granularityOf cs)) (endOfDayMs maxD)
              (granularityOf cs))).map bucketShape) := by
      rw [foldl_aggStep_shape]
      exact List.mem_map_of_mem _ hbmem
    obtain ⟨b, hbmem2, hbshape⟩ := List.mem_map.mp hshape
    have hdate : b.date = u * msPerDay := congrArg (fun p => p.1) hbshape
    have hkeyb : b.key = getBucketKey (u * msPerDay) (granularityOf cs) :=
      congrArg (fun p => p.2.1) hbshape
    refine ⟨b, ?_, hdate, by rw [hkeyb, hkey]⟩
    rw [hpd]
    simp only [createBuckets]
    rw [mem_sortByDate]
    exact hbmem2
  refine ⟨?_, ?_, ?_, ?_, ?_⟩
  · intro h
    unfold granularityOf
    rw [if_neg (by omega)]
  · intro h
    unfold granularityOf
    rw [if_pos h]
  · intro b hb
    rw [hpd] at hb
    simp only [createBuckets] at hb
    rw [mem_sortByDate] at hb
    have hsh : bucketShape b
        ∈ ((cs.foldl (aggStep (granularityOf cs))
            (emptyBuckets (loopStartMs minD (granularityOf cs)) (endOfDayMs maxD)
              (granularityOf cs))).map bucketShape) :=
      List.mem_map_of_mem _ hb
    rw [foldl_aggStep_shape] at hsh
    obtain ⟨b', hb', hshape⟩ := List.mem_map.mp hsh
    rw [hempty] at hb'
    obtain ⟨s, _, hs⟩ := List.mem_map.mp hb'
    have h1 : b'.granularity = granularityOf cs := by
      rw [← hs]
      rfl
    have h2 : b'.granularity = b.granularity :=
      congrArg (fun p => p.2.2) hshape
    rw [← h2, h1]
  · intro hg u hu1 hu2
    have hls : loopStartMs minD (granularityOf cs) = floorDay minD * msPerDay := by
      rw [hg]
      rfl
    have hstep : stepMs (granularityOf cs) = msPerDay := by
      rw [hg]
      rfl
    refine hmem u (u - floorDay minD).toNat ?_ ?_ ?_ ?_
    · rw [hls, hstep]
      unfold msPerDay
      omega
    · unfold endOfDayMs msPerDay
      unfold msPerDay at *
      omega
    · rw [hls]
      unfold endOfDayMs msPerDay
      omega
    · rw [hg, getBucketKey_day]
      have : floorDay (u * msPerDay) = u := by
        unfold floorDay
        exact Int.mul_ediv_cancel u (by decide)
      rw [this]
  · intro hg u hu0 hu1 hu2
    have hls : loopStartMs minD (granularityOf cs)
        = sundayOfDay (floorDay minD) * msPerDay := by
      rw [hg]
      rfl
    have hstep : stepMs (granularityOf cs) = 7 * msPerDay := by
      rw [hg]
      rfl
    unfold weekdayOfDay at hu0
    unfold sundayOfDay weekdayOfDay at hu1
    refine hmem u ((u - (floorDay minD - (floorDay minD + 4) % 7)) / 7).toNat ?_ ?_ ?_ ?_
    · rw [hls, hstep]
      unfold sundayOfDay weekdayOfDay msPerDay
      omega
    · unfold endOfDayMs msPerDay
      unfold msPerDay at *
      omega
    · rw [hls]
      unfold sundayOfDay weekdayOfDay endOfDayMs msPerDay
      omega
    · rw [hg, getBucketKey_week]
      have h1 : floorDay (u * msPerDay) = u := by
        unfold floorDay
        exact Int.mul_ediv_cancel u (by decide)
      have h2 : sundayOfDay u = u := by
        unfold sundayOfDay weekdayOfDay
        omega
      rw [h1, h2]

/-- Witness for C2 on `csW`: weekly granularity is chosen, and the
(empty) bucket of the intervening Sunday 2024-01-07 (day 19729) exists. -/
theorem processData_buckets_witness :
    granularityOf csW = .week ∧
    (∃ b ∈ processData csW,
      b.date = 19729 * msPerDay ∧ b.key = isoDateOfDay 19729) :=
  have h := processData_buckets csW (19723 * 86400000) (19792 * 86400000)
    (by decide) (by decide) (by decide)
  ⟨h.2.1 (by decide),
   h.2.2.2.2 (h.2.1 (by decide)) 19729 (by decide) (by decide) (by decide)⟩

/-- Witness for the amended C3 at the concrete unparseable-date card. -/
theorem filterChats_unparseable_date_witness :
    cardVisibleDetail filterState3 card3
      = (matchesFolderB filterState3 card3 && matchesSearchB filterState3 card3 &&
          matchesWarmupB filterState3 card3) ∧
    cardVisibleExplorer filterState3 card3
      = (matchesFolderB filterState3 card3 && matchesSearchB filterState3 card3) :=
  filterChats_unparseable_date filterState3 card3 (by decide)

/-- Claim C6: for every folder path, `selectFolder` (which invokes the Time
Slider's `filterByFolder`) clears the active selection — both selection
indices become `null` and the Explorer's date-range bounds become `null` —
and notifies the registered range-change listener with `(null, null)`. -/
theorem selectFolder_clears_selection (cd : List Conv) (path : String) (st : AppState) :
    (selectFolderApp cd path st).slider.selectionStart = none ∧
    (selectFolderApp cd path st).slider.selectionEnd = none ∧
    (selectFolderApp cd path st).dateRangeStart = none ∧
    (selectFolderApp cd path st).dateRangeEnd = none ∧
    (selectFolderApp cd path st).slider.notifications
      = st.slider.notifications ++ [(none, none)] := by
  simp [selectFolderApp, filterByFolder, notifyRangeChange, render, notifyDates]

/-- Claim C7: a second `selectChat` for the same `(projectDir, chatId)`
after one successful fetch returns the cached object (it is rendered) with
zero network requests, and the cache is only ever extended by a successful
fetch: any failing call leaves the cache unchanged. -/
theorem selectChat_cache_behavior (pd cid pd2 cid2 : String) (data : ChatData)
    (st st2 : DetailState) (outcome2 outcomeF : FetchOutcome)
    (hmiss : cacheGet st.chatCache (pd ++ "/" ++ cid) = none)
    (hfail : outcomeF = .httpError ∨ outcomeF = .networkError) :
    (selectChat (.ok data) pd cid st).fetchCount = 1 ∧
    cacheGet (selectChat (.ok data) pd cid st).state.chatCache (pd ++ "/" ++ cid)
      = some data ∧
    (selectChat outcome2 pd cid (selectChat (.ok data) pd cid st).state).fetchCount = 0 ∧
    (selectChat outcome2 pd cid (selectChat (.ok data) pd cid st).state).state.renderedChat
      = some data ∧
    (selectChat outcome2 pd cid (selectChat (.ok data) pd cid st).state).state.chatCache
      = (selectChat (.ok data) pd cid st).state.chatCache ∧
    (selectChat outcomeF pd2 cid2 st2).state.chatCache = st2.chatCache := by
  have hset := cacheGet_cacheSet st.chatCache (pd ++ "/" ++ cid) data
  refine ⟨?_, ?_, ?_, ?_, ?_, ?_⟩
  · simp [selectChat, hmiss]
  · simp [selectChat, renderChatDetail, hmiss, hset]
  · simp [selectChat, renderChatDetail, hmiss, hset]
  · simp [selectChat, renderChatDetail, hmiss, hset]
  · simp [selectChat, renderChatDetail, hmiss, hset]
  · rcases hfail with h | h <;> subst h <;>
      cases hhit : cacheGet st2.chatCache (pd2 ++ "/" ++ cid2) <;>
      simp [selectChat, hhit, renderChatDetail]

/-- Witness for C7 at chat `proj1/chat1` with an initially empty cache. -/
theorem selectChat_cache_behavior_witness :
    (selectChat (.ok chatData1) "proj1" "chat1" detailState0).fetchCount = 1 ∧
    cacheGet (selectChat (.ok chatData1) "proj1" "chat1" detailState0).state.chatCache
      ("proj1" ++ "/" ++ "chat1") = some chatData1 ∧
    (selectChat .networkError "proj1" "chat1"
        (selectChat (.ok chatData1) "proj1" "chat1" detailState0).state).fetchCount = 0 ∧
    (selectChat .networkError "proj1" "chat1"
        (selectChat (.ok chatData1) "proj1" "chat1" detailState0).state).state.renderedChat
      = some chatData1 ∧
    (selectChat .networkError "proj1" "chat1"
        (selectChat (.ok chatData1) "proj1" "chat1" detailState0).state).state.chatCache
      = (selectChat (.ok chatData1) "proj1" "chat1" detailState0).state.chatCache ∧
    (selectChat .httpError "p2" "c2" detailState0).state.chatCache
      = detailState0.chatCache :=
  selectChat_cache_behavior "proj1" "chat1" "p2" "c2" chatData1 detailState0 detailState0
    .networkError .httpError (by decide) (Or.inl rfl)

/-- Claim C8: on fetch failure (network error or non-success status) and a
cache miss, `selectChat` shows the error placeholder with the message
"Failed to load chat", logs the error, hides the loading indicator, and
leaves the cache unchanged; it never throws to its caller (the embedding is
a total function — every failure is absorbed by the `catch`). -/
theorem selectChat_failure_behavior (outcome : FetchOutcome) (pd cid : String)
    (st : DetailState)
    (hmiss : cacheGet st.chatCache (pd ++ "/" ++ cid) = none)
    (hfail : outcome = .httpError ∨ outcome = .networkError) :
    (selectChat outcome pd cid st).state.detailEmptyText = "Failed to load chat" ∧
    (selectChat outcome pd cid st).state.detailEmptyVisible = true ∧
    (selectChat outcome pd cid st).state.detailLoadingVisible = false ∧
    (selectChat outcome pd cid st).state.detailContentVisible = false ∧
    (selectChat outcome pd cid st).state.loggedErrors = st.loggedErrors + 1 ∧
    (selectChat outcome pd cid st).state.chatCache = st.chatCache := by
  rcases hfail with h | h <;> subst h <;> simp [selectChat, hmiss]

/-- Witness for C8 at chat `proj1/chat1` with a network error. -/
theorem selectChat_failure_behavior_witness :
    (selectChat .networkError "proj1" "chat1" detailState0).state.detailEmptyText
      = "Failed to load chat" ∧
    (selectChat .networkError "proj1" "chat1" detailState0).state.detailEmptyVisible = true ∧
    (selectChat .networkError "proj1" "chat1" detailState0).state.detailLoadingVisible
      = false ∧
    (selectChat .networkError "proj1" "chat1" detailState0).state.detailContentVisible
      = false ∧
    (selectChat .networkError "proj1" "chat1" detailState0).state.loggedErrors
      = detailState0.loggedErrors + 1 ∧
    (selectChat .networkError "proj1" "chat1" detailState0).state.chatCache
      = detailState0.chatCache :=
  selectChat_failure_behavior .networkError "proj1" "chat1" detailState0
    (by decide) (Or.inr rfl)

end ChatViewer
